import Mathlib

/-!
Verification development for the accvaults-api repository (a Flask backend
that redeems single-use promotional codes against a remote SMM panel API).

The Python sources are shallowly embedded as executable Lean definitions:

* `redeem_db.py` (`RedeemDatabase`): the SQL `codes` table is modelled as an
  association list keyed by the code string (the primary key), and the
  `redemption_history` table as a list of rows.  `datetime` values are
  modelled as integer Unix timestamps in seconds; `timedelta(days := d)`
  becomes `d * secondsPerDay`.  Each stateful method becomes a function from
  the store to the new store paired with its return value.
* `link_validator.py` (`LinkValidator`): the regular expressions of the
  `PATTERNS` table are transcribed into a small regex syntax and matched
  with Brzozowski derivatives; `re.match` is prefix matching anchored at
  the start, `re.IGNORECASE` is modelled by lower-casing literal characters
  before comparison, and the Python `\w` class is modelled by its ASCII
  part (letters, digits, underscore), which covers all inputs considered
  here.  A `$` anchor at the end of a pattern is modelled by full matching.
* `smb_panel.py` (`SMBApiClient`): the single HTTP round trip of
  `_make_request` is modelled by an explicit `Transport` argument that is
  either a parsed JSON response or a `requests.RequestException` message.
* `app.py`: each relevant handler becomes a function of its inputs (parsed
  request fields, store, transport/remote result) returning its response
  and the resulting store.
-/

/-! ## Redemption store (`redeem_db.py`) -/

/-- One row of the `codes` table (see `init_database` in `redeem_db.py`). -/
structure CodeRow where
  service_id : Int
  quantity : Int
  platform : String
  service_type : String
  requirements : String
  status : String
  created_date : Int
  used_date : Option Int
  used_by_user_id : Option String
  order_id : Option Int
  expiry_days : Int
  has_refill : Bool
deriving DecidableEq, Repr

/-- One row of the `redemption_history` table (auto-increment id omitted). -/
structure HistoryRow where
  code : String
  user_id : String
  username : String
  service_id : Int
  quantity : Int
  link : String
  order_id : Option Int
  redeemed_date : Int
deriving DecidableEq, Repr

/-- The database state: the `codes` table keyed by its primary key, and the
append-only `redemption_history` table. -/
structure Store where
  codes : List (String × CodeRow)
  history : List HistoryRow
deriving DecidableEq, Repr

/-- `timedelta(days = d)` in seconds. -/
def secondsPerDay : Int := 86400

/-- `RedeemDatabase.get_code`: `SELECT * FROM codes WHERE code = ?`. -/
def get_code (s : Store) (code : String) : Option CodeRow :=
  (s.codes.find? (fun p => p.1 == code)).map (fun p => p.2)

/-- `RedeemDatabase.is_code_valid`.  NOTE: in the source this returns a bare
Python `bool` (`return False` / `return True`), not a `(bool, reason)` pair;
`now` stands for `datetime.utcnow()`. -/
def is_code_valid (s : Store) (code : String) (now : Int) : Bool :=
  match get_code s code with
  | none => false
  | some cd =>
    if cd.status ≠ "unused" then false
    else if now > cd.created_date + cd.expiry_days * secondsPerDay then false
    else true

/-- `RedeemDatabase.mark_code_used`: `UPDATE codes SET status = 'used',
used_date = ?, used_by_user_id = ?, order_id = ? WHERE code = ?`, then
`return True`.  The `UPDATE` rewrites every row whose key matches (zero or
more rows) and succeeds regardless of how many rows matched. -/
def mark_code_used (s : Store) (code : String) (user_id : String)
    (order_id : Option Int) (now : Int) : Store × Bool :=
  ({ s with codes := s.codes.map (fun p =>
      if p.1 == code then
        (p.1, { p.2 with
                  status := "used"
                  used_date := some now
                  used_by_user_id := some user_id
                  order_id := order_id })
      else p) },
   true)

/-- `RedeemDatabase.add_redemption_history`: plain `INSERT`, `return True`. -/
def add_redemption_history (s : Store) (code user_id username : String)
    (service_id quantity : Int) (link : String) (order_id : Option Int)
    (now : Int) : Store × Bool :=
  ({ s with history := s.history ++
      [{ code := code, user_id := user_id, username := username,
         service_id := service_id, quantity := quantity, link := link,
         order_id := order_id, redeemed_date := now }] },
   true)

/-- A sample unused row, as produced by `add_code` for the spec example
`PROMO-AB12-CD34` (service 1, quantity 100, youtube subscribers, 30 days). -/
def sampleRow : CodeRow :=
  { service_id := 1, quantity := 100, platform := "youtube",
    service_type := "subscribers", requirements := "", status := "unused",
    created_date := 0, used_date := none, used_by_user_id := none,
    order_id := none, expiry_days := 30, has_refill := false }

/-- A store with no codes. -/
def emptyStore : Store := { codes := [], history := [] }

/-- A store holding the sample code, still unused. -/
def freshStore : Store :=
  { codes := [("PROMO-AB12-CD34", sampleRow)], history := [] }

/-- A store holding the sample code already marked used. -/
def usedStore : Store :=
  { codes := [("PROMO-AB12-CD34", { sampleRow with status := "used" })],
    history := [] }

/-! ## Regular expressions (`link_validator.py`)

The pattern table uses only a small regex fragment: literals, the classes
`\w` `\d` `[\w-]` `[\w.]` `[\w.-]`, optional groups `(?:...)?`, alternation,
`+`, `*`, `{2,}` and a final `$` anchor.  We transcribe it into the syntax
below and decide matches with Brzozowski derivatives. -/

/-- Regex syntax: empty language, empty string, a character class,
concatenation, alternation, Kleene star. -/
inductive RE where
  | emp : RE
  | eps : RE
  | cls : (Char → Bool) → RE
  | cat : RE → RE → RE
  | alt : RE → RE → RE
  | star : RE → RE

/-- Does the regex accept the empty string? -/
def RE.nullable : RE → Bool
  | .emp => false
  | .eps => true
  | .cls _ => false
  | .cat a b => a.nullable && b.nullable
  | .alt a b => a.nullable || b.nullable
  | .star _ => true

/-- Brzozowski derivative with respect to one character. -/
def RE.rderiv : RE → Char → RE
  | .emp, _ => .emp
  | .eps, _ => .emp
  | .cls p, c => if p c then .eps else .emp
  | .cat a b, c =>
    if a.nullable then .alt (.cat (a.rderiv c) b) (b.rderiv c)
    else .cat (a.rderiv c) b
  | .alt a b, c => .alt (a.rderiv c) (b.rderiv c)
  | .star a, c => .cat (a.rderiv c) (.star a)

/-- `re.match` semantics: some prefix of the input matches the regex. -/
def matchFrom (r : RE) : List Char → Bool
  | [] => r.nullable
  | c :: s => r.nullable || matchFrom (r.rderiv c) s

/-- Whole-string matching, used for patterns ending in `$`. -/
def matchAll (r : RE) : List Char → Bool
  | [] => r.nullable
  | c :: s => matchAll (r.rderiv c) s

/-- A compiled pattern: `anchored` records a trailing `$`. -/
structure Pat where
  re : RE
  anchored : Bool

/-- Evaluate one pattern against a link, as `re.match(pattern, link,
re.IGNORECASE)` would. -/
def re_match (p : Pat) (s : String) : Bool :=
  if p.anchored then matchAll p.re s.data else matchFrom p.re s.data

/-- A literal character under `re.IGNORECASE`. -/
def lch (c : Char) : RE := .cls (fun x => x.toLower == c)

/-- A literal string under `re.IGNORECASE`. -/
def rstr (s : String) : RE := (s.data.map lch).foldr RE.cat RE.eps

/-- `(?:r)?` -/
def ropt (r : RE) : RE := .alt .eps r

/-- `r+` -/
def rplus (r : RE) : RE := .cat r (.star r)

/-- Concatenation of a pattern list. -/
def pcat (l : List RE) : RE := l.foldr RE.cat RE.eps

/-- `\w` (ASCII part: letters, digits, underscore). -/
def wordC : RE := .cls (fun c => c.isAlphanum || c == '_')

/-- `[\w-]` -/
def wordDash : RE := .cls (fun c => c.isAlphanum || c == '_' || c == '-')

/-- `[\w.]` -/
def wordDot : RE := .cls (fun c => c.isAlphanum || c == '_' || c == '.')

/-- `[\w.-]` -/
def wordDotDash : RE :=
  .cls (fun c => c.isAlphanum || c == '_' || c == '.' || c == '-')

/-- `\d` -/
def digitC : RE := .cls Char.isDigit

/-- `(?:https?://)?` -/
def scheme : RE := ropt (pcat [rstr "http", ropt (lch 's'), rstr "://"])

/-- `(?:www\.)?` -/
def www : RE := ropt (rstr "www.")

/-- An unanchored pattern. -/
def up (r : RE) : Pat := { re := r, anchored := false }

/-- A pattern ending in `$`. -/
def ap (r : RE) : Pat := { re := r, anchored := true }

/-! The `LinkValidator.PATTERNS` table, group by group. -/

def youtube_channel : List Pat :=
  [up (pcat [scheme, www, rstr "youtube.com/@", rplus wordDash]),
   up (pcat [scheme, www, rstr "youtube.com/channel/", rplus wordDash]),
   up (pcat [scheme, www, rstr "youtube.com/c/", rplus wordDash]),
   up (pcat [scheme, www, rstr "youtube.com/user/", rplus wordDash])]

def youtube_video : List Pat :=
  [up (pcat [scheme, www, rstr "youtube.com/watch?v=", rplus wordDash]),
   up (pcat [scheme, rstr "youtu.be/", rplus wordDash])]

def youtube_shorts : List Pat :=
  [up (pcat [scheme, www, rstr "youtube.com/shorts/", rplus wordDash])]

def instagram_profile : List Pat :=
  [ap (pcat [scheme, www, rstr "instagram.com/", rplus wordDot,
             ropt (lch '/')])]

def instagram_post : List Pat :=
  [up (pcat [scheme, www, rstr "instagram.com/p/", rplus wordDash]),
   up (pcat [scheme, www, rstr "instagram.com/reel/", rplus wordDash])]

def tiktok_profile : List Pat :=
  [up (pcat [scheme, www, rstr "tiktok.com/@", rplus wordDot])]

def tiktok_video : List Pat :=
  [up (pcat [scheme, www, rstr "tiktok.com/@", rplus wordDot,
             rstr "/video/", rplus digitC])]

def facebook_profile : List Pat :=
  [up (pcat [scheme, www, rstr "facebook.com/", rplus wordDot])]

def facebook_page : List Pat :=
  [up (pcat [scheme, www, rstr "facebook.com/pages/", rplus wordDash,
             lch '/', rplus digitC])]

def twitter_profile : List Pat :=
  [ap (pcat [scheme, www, RE.alt (rstr "twitter") (rstr "x"), rstr ".com/",
             rplus wordC, ropt (lch '/')])]

def twitter_tweet : List Pat :=
  [up (pcat [scheme, www, RE.alt (rstr "twitter") (rstr "x"), rstr ".com/",
             rplus wordC, rstr "/status/", rplus digitC])]

def telegram : List Pat :=
  [up (pcat [scheme, rstr "t.me/", rplus wordC])]

def twitch : List Pat :=
  [up (pcat [scheme, www, rstr "twitch.tv/", rplus wordC])]

def kick : List Pat :=
  [up (pcat [scheme, www, rstr "kick.com/", rplus wordC])]

def snapchat : List Pat :=
  [up (pcat [scheme, www, rstr "snapchat.com/add/", rplus wordDot])]

def threads : List Pat :=
  [up (pcat [scheme, www, rstr "threads.net/@", rplus wordDot])]

def reddit_profile : List Pat :=
  [up (pcat [scheme, www, rstr "reddit.com/user/", rplus wordDash])]

def reddit_post : List Pat :=
  [up (pcat [scheme, www, rstr "reddit.com/r/", rplus wordC,
             rstr "/comments/", rplus wordC, lch '/'])]

def linkedin_profile : List Pat :=
  [up (pcat [scheme, www, rstr "linkedin.com/in/", rplus wordDash])]

def linkedin_company : List Pat :=
  [up (pcat [scheme, www, rstr "linkedin.com/company/", rplus wordDash])]

def spotify_artist : List Pat :=
  [up (pcat [scheme, rstr "open.spotify.com/artist/", rplus wordC])]

def spotify_track : List Pat :=
  [up (pcat [scheme, rstr "open.spotify.com/track/", rplus wordC])]

def spotify_playlist : List Pat :=
  [up (pcat [scheme, rstr "open.spotify.com/playlist/", rplus wordC])]

def generic_url : List Pat :=
  [up (pcat [scheme, www, rplus wordDotDash, lch '.', wordC, wordC,
             RE.star wordC, RE.star (RE.cat (lch '/') (RE.star wordDotDash))])]

/-- Does any pattern of the group match (the `for pattern in ...: if
re.match(...)` loops)? -/
def anyMatch (pats : List Pat) (link : String) : Bool :=
  pats.any (fun p => re_match p link)

/-- Is `needle` a contiguous substring of `hay` (Python `in` on strings)? -/
def listContains [BEq α] (needle : List α) : List α → Bool
  | [] => needle.isEmpty
  | c :: rest => needle.isPrefixOf (c :: rest) || listContains needle rest

/-- Python `needle in hay` on strings. -/
def strContains (hay needle : String) : Bool := listContains needle.data hay.data

/-- Python `str.strip()`: drop leading and trailing whitespace. -/
def pyStrip (s : String) : String :=
  ⟨((s.data.dropWhile Char.isWhitespace).reverse.dropWhile
      Char.isWhitespace).reverse⟩

/-- Python `str.lower()` (ASCII part). -/
def pyLower (s : String) : String := ⟨s.data.map Char.toLower⟩

/-- Python `str.upper()` (ASCII part). -/
def pyUpper (s : String) : String := ⟨s.data.map Char.toUpper⟩

/-- Helper for `pySplit`: split on whitespace runs, dropping empty words. -/
def splitWsList : List Char → List Char → List String
  | [], acc => if acc.isEmpty then [] else [⟨acc.reverse⟩]
  | c :: rest, acc =>
    if c.isWhitespace then
      if acc.isEmpty then splitWsList rest []
      else ⟨acc.reverse⟩ :: splitWsList rest []
    else splitWsList rest (c :: acc)

/-- Python `str.split()` with no separator argument. -/
def pySplit (s : String) : List String := splitWsList s.data []

/-- `LinkValidator.detect_link_type`.  The result is `Option (Bool × String)`
because the Python function has `if/elif` chains without a final `else` for
the platforms `youtube`, `instagram`, `tiktok` and `twitter`/`x`: a
service type handled by none of the inner branches falls off the end of the
function, which in Python returns `None` instead of the annotated
`Tuple[bool, str]`. -/
def detect_link_type (link platform service_type : String) :
    Option (Bool × String) :=
  let link := pyStrip link
  if platform == "youtube" then
    if ["subscribers", "subscriber"].contains service_type then
      if anyMatch youtube_channel link then
        some (true, "Valid YouTube channel link")
      else
        some (false, "❌ Invalid link. YouTube Subscribers require a channel link (youtube.com/@username or /channel/ID)")
    else if ["views", "view", "likes", "like", "comments", "comment"].contains service_type then
      if anyMatch youtube_video link then
        some (true, "Valid YouTube video link")
      else
        some (false, "❌ Invalid link. YouTube Views/Likes require a video link (youtube.com/watch?v=...)")
    else if strContains (pyLower service_type) "shorts" then
      if anyMatch youtube_shorts link then
        some (true, "Valid YouTube Shorts link")
      else
        some (false, "❌ Invalid link. YouTube Shorts require a shorts link (youtube.com/shorts/...)")
    else if strContains (pyLower service_type) "live" then
      if anyMatch (youtube_video ++ youtube_channel) link then
        some (true, "Valid YouTube link")
      else
        some (false, "❌ Invalid link. Provide a YouTube video or channel link")
    else none
  else if platform == "instagram" then
    if ["followers", "follower"].contains service_type then
      if anyMatch instagram_profile link then
        some (true, "Valid Instagram profile link")
      else
        some (false, "❌ Invalid link. Instagram Followers require a profile link (instagram.com/username)")
    else if ["likes", "like", "views", "view", "comments", "comment"].contains service_type then
      if anyMatch instagram_post link then
        some (true, "Valid Instagram post/reel link")
      else
        some (false, "❌ Invalid link. Provide an Instagram post or reel link (instagram.com/p/... or /reel/...)")
    else none
  else if platform == "tiktok" then
    if ["followers", "follower"].contains service_type then
      if anyMatch tiktok_profile link then
        some (true, "Valid TikTok profile link")
      else
        some (false, "❌ Invalid link. TikTok Followers require a profile link (tiktok.com/@username)")
    else if ["likes", "like", "views", "view", "comments", "comment"].contains service_type then
      if anyMatch tiktok_video link then
        some (true, "Valid TikTok video link")
      else if anyMatch tiktok_profile link then
        some (true, "Valid TikTok link")
      else
        some (false, "❌ Invalid link. Provide a TikTok video link (tiktok.com/@user/video/...)")
    else none
  else if platform == "twitter" || platform == "x" then
    if ["followers", "follower"].contains service_type then
      if anyMatch twitter_profile link then
        some (true, "Valid Twitter/X profile link")
      else
        some (false, "❌ Invalid link. Twitter Followers require a profile link (twitter.com/username or x.com/username)")
    else if ["likes", "like", "retweets", "retweet", "views", "view"].contains service_type then
      if anyMatch twitter_tweet link then
        some (true, "Valid Twitter/X tweet link")
      else
        some (false, "❌ Invalid link. Provide a tweet link (twitter.com/user/status/...)")
    else none
  else if platform == "facebook" then
    if anyMatch (facebook_profile ++ facebook_page) link then
      some (true, "Valid Facebook link")
    else
      some (false, "❌ Invalid link. Provide a Facebook profile or page link")
  else if platform == "telegram" then
    if anyMatch telegram link then
      some (true, "Valid Telegram link")
    else
      some (false, "❌ Invalid link. Provide a Telegram link (t.me/username)")
  else if platform == "twitch" then
    if anyMatch twitch link then
      some (true, "Valid Twitch link")
    else
      some (false, "❌ Invalid link. Provide a Twitch channel link (twitch.tv/username)")
  else if platform == "kick" then
    if anyMatch kick link then
      some (true, "Valid Kick link")
    else
      some (false, "❌ Invalid link. Provide a Kick channel link (kick.com/username)")
  else if platform == "snapchat" then
    if anyMatch snapchat link then
      some (true, "Valid Snapchat link")
    else
      some (false, "❌ Invalid link. Provide a Snapchat profile link (snapchat.com/add/username)")
  else if platform == "threads" then
    if anyMatch threads link then
      some (true, "Valid Threads link")
    else
      some (false, "❌ Invalid link. Provide a Threads profile link (threads.net/@username)")
  else if platform == "reddit" then
    if ["followers", "follower", "karma"].contains service_type then
      if anyMatch reddit_profile link then
        some (true, "Valid Reddit profile link")
      else
        some (false, "❌ Invalid link. Provide a Reddit profile link (reddit.com/user/username)")
    else
      if anyMatch reddit_post link then
        some (true, "Valid Reddit post link")
      else
        some (false, "❌ Invalid link. Provide a Reddit post link")
  else if platform == "linkedin" then
    if anyMatch (linkedin_profile ++ linkedin_company) link then
      some (true, "Valid LinkedIn link")
    else
      some (false, "❌ Invalid link. Provide a LinkedIn profile or company link")
  else if platform == "spotify" then
    if anyMatch (spotify_artist ++ spotify_track ++ spotify_playlist) link then
      some (true, "Valid Spotify link")
    else
      some (false, "❌ Invalid link. Provide a Spotify artist, track, or playlist link")
  else
    if anyMatch generic_url link then
      some (true, "Valid URL")
    else
      some (false, "❌ Invalid URL format")

/-! ## Order gateway (`smb_panel.py`) -/

/-- A JSON value, as decoded from the panel response body. -/
inductive JsonVal where
  | null : JsonVal
  | str : String → JsonVal
  | num : Int → JsonVal
  | arr : List JsonVal → JsonVal
  | obj : List (String × JsonVal) → JsonVal

/-- Python `'k' in d` for a decoded JSON object; `False` on non-objects. -/
def hasKey (j : JsonVal) (k : String) : Bool :=
  match j with
  | .obj fields => fields.any (fun p => p.1 == k)
  | _ => false

/-- The outcome of the single HTTP round trip in `_make_request`: either the
decoded JSON body of a 2xx response, or the message of the
`requests.RequestException` raised by `session.post` / `raise_for_status`. -/
def Transport := Except String JsonVal

/-- `SMBApiClient._make_request`: perform the round trip; on a
`RequestException` return `{'error': 'API request failed: ...'}`.  The
`action` and `data` arguments are sent in the request body and do not
influence the failure shape. -/
def _make_request (action : String) (data : List (String × JsonVal))
    (transport : Transport) : JsonVal :=
  match action, data, transport with
  | _, _, .ok j => j
  | _, _, .error e => .obj [("error", .str ("API request failed: " ++ e))]

/-- `SMBApiClient.get_balance`. -/
def get_balance (t : Transport) : JsonVal := _make_request "balance" [] t

/-- `SMBApiClient.get_services`: `return result if isinstance(result, list)
else []`. -/
def get_services (t : Transport) : JsonVal :=
  match _make_request "services" [] t with
  | .arr xs => .arr xs
  | _ => .arr []

/-- `SMBApiClient.create_order`. -/
def create_order (service_id : Int) (link : String) (quantity : Int)
    (t : Transport) : JsonVal :=
  _make_request "add"
    [("service", .num service_id), ("link", .str link),
     ("quantity", .num quantity)] t

/-- Comma-joined id list, `','.join(map(str, ids))`. -/
def joinIds (ids : List Int) : String :=
  String.intercalate "," (ids.map toString)

/-- `SMBApiClient.get_order_status` (single id / batch). -/
def get_order_status (order_id : Int ⊕ List Int) (t : Transport) : JsonVal :=
  match order_id with
  | .inr ids => _make_request "status" [("orders", .str (joinIds ids))] t
  | .inl i => _make_request "status" [("order", .num i)] t

/-- `SMBApiClient.refill_order` (single id / batch). -/
def refill_order (order_id : Int ⊕ List Int) (t : Transport) : JsonVal :=
  match order_id with
  | .inr ids => _make_request "refill" [("orders", .str (joinIds ids))] t
  | .inl i => _make_request "refill" [("order", .num i)] t

/-- `SMBApiClient.get_refill_status` (single id / batch). -/
def get_refill_status (refill_id : Int ⊕ List Int) (t : Transport) : JsonVal :=
  match refill_id with
  | .inr ids => _make_request "refill_status" [("refills", .str (joinIds ids))] t
  | .inl i => _make_request "refill_status" [("refill", .num i)] t

/-- `SMBApiClient.cancel_orders`. -/
def cancel_orders (order_ids : List Int) (t : Transport) : JsonVal :=
  _make_request "cancel" [("orders", .str (joinIds order_ids))] t

/-! ## Service search (`search_services` in `app.py`) -/

/-- One service dictionary from the panel list.  `rate` models the numeric
value of `float(service.get('rate', 999999))` (`none` when the key is
absent), likewise `min`/`max`; float prices are modelled by rationals. -/
structure Service where
  name : String
  category : String
  type : String
  rate : Option Rat
  min : Option Int
  max : Option Int
  refill : Bool
deriving DecidableEq, Repr

/-- `float(service.get('rate', 999999))`. -/
def effRate (svc : Service) : Rat := svc.rate.getD 999999

/-- `int(service.get('min', 0))`. -/
def effMin (svc : Service) : Int := svc.min.getD 0

/-- `int(service.get('max', 0))`. -/
def effMax (svc : Service) : Int := svc.max.getD 0

/-- The fixed keyword list of the `no_drop` filter. -/
def noDropKeywords : List String :=
  ["no drop", "nodrop", "no-drop", "permanent", "lifetime",
   "guaranteed", "guarantee", "stable"]

/-- The loop body of `search_services`: one `continue` check per filter,
in source order; the service is kept when no check fires.  `query` has
already been lower-cased by the handler. -/
def service_passes (query : String) (max_price : Option Rat)
    (min_quantity max_quantity : Option Int) (refill_only no_drop : Bool)
    (svc : Service) : Bool :=
  let searchable :=
    pyLower svc.name ++ " " ++ pyLower svc.category ++ " " ++ pyLower svc.type
  let query_words := pySplit query
  if query != "" && !(query_words.all (fun w => strContains searchable w)) then
    false
  else if (match max_price with
           | none => false
           | some x => decide (effRate svc > x)) then
    false
  else if (match min_quantity with
           | none => false
           | some m => decide (effMin svc > m)) then
    false
  else if (match max_quantity with
           | none => false
           | some m => decide (effMax svc < m)) then
    false
  else if refill_only && !svc.refill then
    false
  else if no_drop &&
      !(noDropKeywords.any (fun kw => strContains (pyLower svc.name) kw)) then
    false
  else
    true

/-- The sort key comparison of `matching_services.sort(key = rate)`. -/
def rateLE (a b : Service) : Prop := effRate a ≤ effRate b

instance : DecidableRel rateLE :=
  fun a b => inferInstanceAs (Decidable (effRate a ≤ effRate b))

/-- The `/api/search` handler body: filter, then sort ascending by price. -/
def search_services (services : List Service) (query : String)
    (max_price : Option Rat) (min_quantity max_quantity : Option Int)
    (refill_only no_drop : Bool) : List Service :=
  List.insertionSort rateLE
    (services.filter
      (service_passes (pyLower query) max_price min_quantity max_quantity
        refill_only no_drop))

/-! ## Admin endpoints (`app.py`) -/

/-- Outcome of `verify_admin_key`: `hmac.compare_digest(api_key,
ADMIN_API_KEY)` raises `TypeError` when the header was absent
(`request.headers.get` returned `None`). -/
inductive AuthCheck where
  | ok : Bool → AuthCheck
  | typeError : AuthCheck
deriving DecidableEq, Repr

/-- `verify_admin_key` in `app.py`. -/
def verify_admin_key (admin_api_key : String) (api_key : Option String) :
    AuthCheck :=
  if admin_api_key == "" then .ok false
  else
    match api_key with
    | none => .typeError
    | some k => .ok (k == admin_api_key)

/-- What an admin handler produced: the HTTP status code actually sent, and
whether the guarded action (remote call or database read) ran. -/
structure AdminResult where
  status : Nat
  executed : Bool
deriving DecidableEq, Repr

/-- `admin_balance`: the guard sits before the `try` block, so a
`TypeError` from `verify_admin_key` escapes the handler and the framework
answers 500. -/
def admin_balance (admin_api_key : String) (api_key : Option String) :
    AdminResult :=
  match verify_admin_key admin_api_key api_key with
  | .typeError => { status := 500, executed := false }
  | .ok false => { status := 401, executed := false }
  | .ok true => { status := 200, executed := true }

/-- Python truthiness of an optional int field (`None` and `0` are falsy). -/
def truthyInt : Option Int → Bool
  | none => false
  | some n => n != 0

/-- Python truthiness of an optional string field. -/
def truthyStr : Option String → Bool
  | none => false
  | some s => s != ""

/-- `admin_create_order`: after the guard, `if not all([service_id, link,
quantity])` rejects falsy fields with a 200/`success:false` response and the
remote call is skipped. -/
def admin_create_order (admin_api_key : String) (api_key : Option String)
    (service_id : Option Int) (link : Option String)
    (quantity : Option Int) : AdminResult :=
  match verify_admin_key admin_api_key api_key with
  | .typeError => { status := 500, executed := false }
  | .ok false => { status := 401, executed := false }
  | .ok true =>
    if !(truthyInt service_id && truthyStr link && truthyInt quantity) then
      { status := 200, executed := false }
    else
      { status := 200, executed := true }

/-- `admin_get_codes` (the `status` query parameter only filters the read). -/
def admin_get_codes (admin_api_key : String) (api_key : Option String)
    (statusFilter : Option String) : AdminResult :=
  match verify_admin_key admin_api_key api_key, statusFilter with
  | .typeError, _ => { status := 500, executed := false }
  | .ok false, _ => { status := 401, executed := false }
  | .ok true, _ => { status := 200, executed := true }

/-- `admin_get_redemptions`. -/
def admin_get_redemptions (admin_api_key : String)
    (api_key : Option String) : AdminResult :=
  match verify_admin_key admin_api_key api_key with
  | .typeError => { status := 500, executed := false }
  | .ok false => { status := 401, executed := false }
  | .ok true => { status := 200, executed := true }

/-! ## Redeem handler (`redeem_code` in `app.py`) -/

/-- The standardized response envelope (`create_response`), restricted to
the fields the claims mention. -/
structure ApiResponse where
  success : Bool
  message : String
deriving DecidableEq, Repr

/-- The `/api/redeem` handler.  It normalizes its inputs and checks they are
non-empty; it then executes
`is_valid, message = redeem_db.is_code_valid(code)`.  Since
`RedeemDatabase.is_code_valid` returns a bare `bool`, this tuple unpacking
raises `TypeError: cannot unpack non-iterable bool object`, which the
handler's `except Exception` clause turns into a failure response — before
`get_code`, `detect_link_type`, `create_order`, `mark_code_used` or
`add_redemption_history` can run.  The later steps of the source are
therefore unreachable, and every request leaves the store untouched.
`orderResult` stands for the JSON the remote `create_order` call would
return, `now` for `datetime.utcnow()`. -/
def redeem_code (s : Store) (codeIn linkIn user_id username : String)
    (orderResult : JsonVal) (now : Int) : ApiResponse × Store :=
  let code := pyUpper (pyStrip codeIn)
  let link := pyStrip linkIn
  if code == "" || link == "" then
    ({ success := false, message := "Code and link are required" }, s)
  else
    ({ success := false,
       message := "cannot unpack non-iterable bool object" }, s)

/-! ## Theorems about the redemption store -/

/-- The key-preserving row update of `mark_code_used` commutes with the
primary-key lookup. -/
theorem find?_update_map (l : List (String × CodeRow)) (code : String)
    (f : CodeRow → CodeRow) :
    (l.map (fun p => if p.1 == code then (p.1, f p.2) else p)).find?
        (fun p => p.1 == code)
      = (l.find? (fun p => p.1 == code)).map (fun p => (p.1, f p.2)) := by
  induction l with
  | nil => rfl
  | cons a t ih =>
    simp only [List.map_cons]
    by_cases hb : (a.1 == code) = true
    · have h2 : ((a.1, f a.2).1 == code) = true := hb
      rw [if_pos hb, List.find?_cons, List.find?_cons, h2]
      rfl
    · have hb2 : (a.1 == code) = false := by
        revert hb
        cases a.1 == code <;> simp
      rw [if_neg hb, List.find?_cons, List.find?_cons, hb2]
      exact ih

/-- An `UPDATE ... WHERE code = ?` matching no row leaves the table as it
was. -/
theorem map_update_id (l : List (String × CodeRow)) (code : String)
    (f : CodeRow → CodeRow)
    (h : l.find? (fun p => p.1 == code) = none) :
    l.map (fun p => if p.1 == code then (p.1, f p.2) else p) = l := by
  rw [List.find?_eq_none] at h
  have : l.map (fun p => if p.1 == code then (p.1, f p.2) else p) = l.map id :=
    List.map_congr_left (fun a ha => by
      have := h a ha
      simp only [Bool.not_eq_true] at this
      simp [this])
  simpa using this

/-- Reading back the updated code after `mark_code_used`. -/
theorem get_code_after_mark (s : Store) (code user_id : String)
    (order_id : Option Int) (now : Int) :
    get_code (mark_code_used s code user_id order_id now).1 code =
      (get_code s code).map (fun r =>
        { r with
            status := "used", used_date := some now,
            used_by_user_id := some user_id, order_id := order_id }) := by
  unfold get_code mark_code_used
  dsimp only
  rw [find?_update_map s.codes code (fun r =>
    { r with
        status := "used", used_date := some now,
        used_by_user_id := some user_id, order_id := order_id })]
  cases s.codes.find? (fun p => p.1 == code) <;> rfl

/-- C1: `RedeemDatabase.is_code_valid` evaluated at its claimed interface.
The function returns a bare boolean — `false` for an absent code, `false`
for a used code, `false` for an expired code, `true` otherwise — and no
`(bool, reason)` pair carrying "invalid code" / "already used" / "expired"
exists anywhere in its results; its caller `app.py` line 218 unpacks the
returned bool as a pair, which raises `TypeError` in Python. -/
theorem is_code_valid_bare_bool_eval :
    is_code_valid emptyStore "PROMO-AB12-CD34" 0 = false ∧
    is_code_valid usedStore "PROMO-AB12-CD34" 0 = false ∧
    is_code_valid freshStore "PROMO-AB12-CD34" (31 * secondsPerDay) = false ∧
    is_code_valid freshStore "PROMO-AB12-CD34" (10 * secondsPerDay) = true := by
  decide

/-- C3: for every code present in the store, `is_code_valid` answers `false`
after `mark_code_used` has been applied to that code, answers `false`
whenever the current time exceeds `created_date + expiry_days`, and answers
`true` for an unused, unexpired code. -/
theorem is_code_valid_lifecycle (s : Store) (code user_id : String)
    (order_id : Option Int) (row : CodeRow) (tMark now : Int)
    (h : get_code s code = some row) :
    is_code_valid (mark_code_used s code user_id order_id tMark).1 code now
        = false ∧
    (now > row.created_date + row.expiry_days * secondsPerDay →
      is_code_valid s code now = false) ∧
    (row.status = "unused" →
      ¬ now > row.created_date + row.expiry_days * secondsPerDay →
      is_code_valid s code now = true) := by
  refine ⟨?_, ?_, ?_⟩
  · unfold is_code_valid
    rw [get_code_after_mark, h]
    rfl
  · intro hexp
    unfold is_code_valid
    rw [h]
    dsimp only
    by_cases hst : row.status = "unused"
    · rw [if_neg (fun hne => hne hst), if_pos hexp]
    · rw [if_pos hst]
  · intro hst hexp
    unfold is_code_valid
    rw [h]
    dsimp only
    rw [if_neg (fun hne => hne hst), if_neg hexp]

/-- Witness for C3 at the concrete sample store. -/
theorem is_code_valid_lifecycle_witness :
    get_code freshStore "PROMO-AB12-CD34" = some sampleRow ∧
    is_code_valid
      (mark_code_used freshStore "PROMO-AB12-CD34" "web_user" (some 7)
        (5 * secondsPerDay)).1 "PROMO-AB12-CD34" (6 * secondsPerDay)
      = false ∧
    is_code_valid freshStore "PROMO-AB12-CD34" (31 * secondsPerDay) = false ∧
    is_code_valid freshStore "PROMO-AB12-CD34" (6 * secondsPerDay) = true := by
  refine ⟨by decide, ?_, ?_, ?_⟩
  · exact (is_code_valid_lifecycle freshStore "PROMO-AB12-CD34" "web_user"
      (some 7) sampleRow (5 * secondsPerDay) (6 * secondsPerDay)
      (by decide)).1
  · exact (is_code_valid_lifecycle freshStore "PROMO-AB12-CD34" "web_user"
      (some 7) sampleRow (5 * secondsPerDay) (31 * secondsPerDay)
      (by decide)).2.1 (by decide)
  · exact (is_code_valid_lifecycle freshStore "PROMO-AB12-CD34" "web_user"
      (some 7) sampleRow (5 * secondsPerDay) (6 * secondsPerDay)
      (by decide)).2.2 (by decide) (by decide)

/-- C4: `mark_code_used` is an unconditional update.  For any code present
in the store — whatever its current status, including `'used'` — it returns
`true` and overwrites `status`, `used_date`, `used_by_user_id` and
`order_id`; nothing conditions the write on the row still being unused. -/
theorem mark_code_used_unconditional (s : Store) (code user_id : String)
    (order_id : Option Int) (now : Int) (row : CodeRow)
    (h : get_code s code = some row) :
    (mark_code_used s code user_id order_id now).2 = true ∧
    get_code (mark_code_used s code user_id order_id now).1 code =
      some { row with
               status := "used", used_date := some now,
               used_by_user_id := some user_id, order_id := order_id } := by
  refine ⟨rfl, ?_⟩
  rw [get_code_after_mark, h]
  rfl

/-- Witness for C4 at a code that is already used. -/
theorem mark_code_used_unconditional_witness :
    get_code usedStore "PROMO-AB12-CD34"
        = some { sampleRow with status := "used" } ∧
    ((mark_code_used usedStore "PROMO-AB12-CD34" "user-2" (some 42) 99).2
        = true ∧
      get_code (mark_code_used usedStore "PROMO-AB12-CD34" "user-2"
          (some 42) 99).1 "PROMO-AB12-CD34" =
        some { { sampleRow with status := "used" } with
                 status := "used", used_date := some 99,
                 used_by_user_id := some "user-2", order_id := some 42 }) :=
  ⟨by decide,
   mark_code_used_unconditional usedStore "PROMO-AB12-CD34" "user-2"
     (some 42) 99 { sampleRow with status := "used" } (by decide)⟩

/-- C10: for a code that is not in the store, `mark_code_used` still
returns `true` (the `UPDATE` matched zero rows) and the store is unchanged,
so a `true` result does not imply that any code was marked used. -/
theorem mark_code_used_absent_code (s : Store) (code user_id : String)
    (order_id : Option Int) (now : Int)
    (h : get_code s code = none) :
    (mark_code_used s code user_id order_id now).2 = true ∧
    (mark_code_used s code user_id order_id now).1 = s := by
  refine ⟨rfl, ?_⟩
  have hf : s.codes.find? (fun p => p.1 == code) = none := by
    unfold get_code at h
    exact Option.map_eq_none'.mp h
  unfold mark_code_used
  dsimp only
  rw [map_update_id s.codes code (fun r =>
    { r with
        status := "used", used_date := some now,
        used_by_user_id := some user_id, order_id := order_id }) hf]

/-- Witness for C10 at the empty store. -/
theorem mark_code_used_absent_code_witness :
    get_code emptyStore "PROMO-AB12-CD34" = none ∧
    ((mark_code_used emptyStore "PROMO-AB12-CD34" "user-3" (some 5) 77).2
        = true ∧
     (mark_code_used emptyStore "PROMO-AB12-CD34" "user-3" (some 5) 77).1
        = emptyStore) :=
  ⟨by decide,
   mark_code_used_absent_code emptyStore "PROMO-AB12-CD34" "user-3"
     (some 5) 77 (by decide)⟩

/-! ## Theorems about the link validator and handlers -/

/-- C2 (counter-evaluation): `detect_link_type` is not total on its
advertised interface.  For platform `youtube` with service type `followers`
(and for `instagram` with `subscribers`) no inner branch handles the
service type, the `if/elif` chain falls through, and the Python function
returns `None` instead of the annotated `(bool, message)` pair — its caller
in `app.py` would fail unpacking it. -/
theorem detect_link_type_not_total :
    detect_link_type "https://youtube.com/@someuser" "youtube" "followers"
        = none ∧
    detect_link_type "https://instagram.com/someuser" "instagram"
        "subscribers" = none := by
  decide

/-- C9: for a `youtube` / `subscribers` code, the channel link
`https://youtube.com/@someuser` validates, and the video link
`https://youtube.com/watch?v=xyz` is rejected with the channel-link
guidance message. -/
theorem youtube_subscribers_link_example :
    detect_link_type "https://youtube.com/@someuser" "youtube" "subscribers"
        = some (true, "Valid YouTube channel link") ∧
    detect_link_type "https://youtube.com/watch?v=xyz" "youtube" "subscribers"
        = some (false, "❌ Invalid link. YouTube Subscribers require a channel link (youtube.com/@username or /channel/ID)") := by
  decide

/-- C5: whenever the code-validity check fails, or the link validation
fails, or the remote order-creation response lacks an `'order'` id, the
redeem handler answers with a failure and the store is unchanged — the code
is not marked used and no history row is appended.  (In the source as it
stands the abort even happens on every request: the tuple unpacking of the
bare bool returned by `is_code_valid` raises before any write, see
`redeem_code`.) -/
theorem redeem_code_aborts_on_failure (s : Store)
    (codeIn linkIn user_id username : String) (orderResult : JsonVal)
    (now : Int)
    (h : is_code_valid s (pyUpper (pyStrip codeIn)) now = false ∨
         (∀ row, get_code s (pyUpper (pyStrip codeIn)) = some row →
            ∀ m, detect_link_type (pyStrip linkIn) row.platform
                   row.service_type ≠ some (true, m)) ∨
         hasKey orderResult "order" = false) :
    (redeem_code s codeIn linkIn user_id username orderResult now).1.success
        = false ∧
    (redeem_code s codeIn linkIn user_id username orderResult now).2 = s := by
  constructor <;>
    (simp only [redeem_code]; split <;> rfl)

/-- Witness for C5: an absent code fails the validity check and the
request leaves the empty store unchanged. -/
theorem redeem_code_aborts_on_failure_witness :
    is_code_valid emptyStore (pyUpper (pyStrip "promo-ab12-cd34")) 0
        = false ∧
    ((redeem_code emptyStore "promo-ab12-cd34"
        "https://youtube.com/@someuser" "u1" "User" JsonVal.null 0).1.success
        = false ∧
     (redeem_code emptyStore "promo-ab12-cd34"
        "https://youtube.com/@someuser" "u1" "User" JsonVal.null 0).2
        = emptyStore) :=
  ⟨by decide,
   redeem_code_aborts_on_failure emptyStore "promo-ab12-cd34"
     "https://youtube.com/@someuser" "u1" "User" JsonVal.null 0
     (Or.inl (by decide))⟩

/-- C7 (counter-evaluation): with an admin secret configured and the
`X-API-Key` header absent, each admin handler ends in
`hmac.compare_digest(None, secret)`, whose `TypeError` escapes the handler
(the guard sits before the `try` block) and the framework answers HTTP 500,
not the claimed 401 — the guarded action still never runs.  A present but
mismatching key does get 401. -/
theorem admin_missing_header_not_401 :
    admin_balance "secret" none = { status := 500, executed := false } ∧
    admin_create_order "secret" none (some 1) (some "https://x.com/a")
        (some 10) = { status := 500, executed := false } ∧
    admin_get_codes "secret" none none
        = { status := 500, executed := false } ∧
    admin_get_redemptions "secret" none
        = { status := 500, executed := false } ∧
    admin_balance "secret" (some "wrong-key")
        = { status := 401, executed := false } := by
  decide

/-- C8 (counter-evaluation): on a transport failure the list-services
operation does not return a dictionary with an `'error'` key: it coerces
the error payload to the empty list. -/
theorem get_services_transport_failure_empty_list :
    get_services (Except.error "connection refused") = JsonVal.arr [] ∧
    hasKey (get_services (Except.error "connection refused")) "error"
        = false :=
  ⟨rfl, rfl⟩

/-- C8 (amended): a transport failure never raises; balance, create-order,
order-status, refill, refill-status and cancel all return a dictionary
containing an `'error'` key, while list-services returns the empty list. -/
theorem transport_failure_error_payload (e : String) (service_id : Int)
    (link : String) (quantity : Int) (oid : Int) (ids : List Int) :
    hasKey (get_balance (Except.error e)) "error" = true ∧
    hasKey (create_order service_id link quantity (Except.error e)) "error"
        = true ∧
    hasKey (get_order_status (Sum.inl oid) (Except.error e)) "error" = true ∧
    hasKey (get_order_status (Sum.inr ids) (Except.error e)) "error" = true ∧
    hasKey (refill_order (Sum.inl oid) (Except.error e)) "error" = true ∧
    hasKey (refill_order (Sum.inr ids) (Except.error e)) "error" = true ∧
    hasKey (get_refill_status (Sum.inl oid) (Except.error e)) "error"
        = true ∧
    hasKey (get_refill_status (Sum.inr ids) (Except.error e)) "error"
        = true ∧
    hasKey (cancel_orders ids (Except.error e)) "error" = true ∧
    get_services (Except.error e) = JsonVal.arr [] :=
  ⟨rfl, rfl, rfl, rfl, rfl, rfl, rfl, rfl, rfl, rfl⟩

/-! ## Theorems about the service search -/

instance : IsTotal Service rateLE :=
  ⟨fun a b => le_total (effRate a) (effRate b)⟩

instance : IsTrans Service rateLE :=
  ⟨fun _ _ _ hab hbc => le_trans hab hbc⟩

/-- C6: with no filters the search returns all services sorted ascending by
price; with a `max_price` filter every returned service has rate at most
the bound; with `refill_only` every returned service has the refill flag. -/
theorem search_services_filters :
    (∀ services : List Service,
       (search_services services "" none none none false false).Perm
           services ∧
       List.Sorted rateLE
           (search_services services "" none none none false false)) ∧
    (∀ (services : List Service) (query : String) (x : Rat)
       (minq maxq : Option Int) (ro nd : Bool) (svc : Service),
       svc ∈ search_services services query (some x) minq maxq ro nd →
       effRate svc ≤ x) ∧
    (∀ (services : List Service) (query : String) (mp : Option Rat)
       (minq maxq : Option Int) (nd : Bool) (svc : Service),
       svc ∈ search_services services query mp minq maxq true nd →
       svc.refill = true) := by
  refine ⟨?_, ?_, ?_⟩
  · intro services
    unfold search_services
    have hfilter : services.filter
        (service_passes (pyLower "") none none none false false)
        = services :=
      List.filter_eq_self.mpr (fun a _ => rfl)
    rw [hfilter]
    exact ⟨List.perm_insertionSort rateLE services,
           List.sorted_insertionSort rateLE services⟩
  · intro services query x minq maxq ro nd svc hmem
    unfold search_services at hmem
    rw [List.mem_insertionSort] at hmem
    have hp := List.of_mem_filter hmem
    simp only [service_passes] at hp
    by_cases hgt : effRate svc > x
    · exfalso
      split_ifs at hp <;> simp_all
    · exact not_lt.mp hgt
  · intro services query mp minq maxq nd svc hmem
    unfold search_services at hmem
    rw [List.mem_insertionSort] at hmem
    have hp := List.of_mem_filter hmem
    simp only [service_passes] at hp
    by_cases hr : svc.refill = true
    · exact hr
    · exfalso
      split_ifs at hp <;> simp_all

/-- A sample panel service used by the search witness. -/
def svcA : Service :=
  { name := "YouTube Subscribers HQ", category := "YouTube",
    type := "subscribers", rate := some 1, min := some 10, max := some 1000,
    refill := true }

/-- Witness for C6 at a one-service list. -/
theorem search_services_filters_witness :
    svcA ∈ search_services [svcA] "" (some 5) none none false false ∧
    effRate svcA ≤ 5 ∧
    svcA ∈ search_services [svcA] "" none none none true false ∧
    svcA.refill = true := by
  have hm1 : svcA ∈ search_services [svcA] "" (some 5) none none false false := by
    decide
  have hm2 : svcA ∈ search_services [svcA] "" none none none true false := by
    decide
  exact ⟨hm1,
    search_services_filters.2.1 [svcA] "" 5 none none false false svcA hm1,
    hm2,
    search_services_filters.2.2 [svcA] "" none none none false svcA hm2⟩
